import Mathlib

/-!
A shallow embedding of the `edunet_back` Express/Mongoose backend
(`src/index.js` and the Mongoose models under `src/models/`), restricted
to the parts the verified claims are about: the teacher-profile
reconciler (GET/POST `/api/teacherProfiles`, PUT
`/api/teacherProfiles/:teacherId`), enrollments (POST `/api/enrollments`),
registration and admin setup (POST `/api/register`, POST
`/api/setup-admin`), and the admin user update/delete endpoints
(PUT/DELETE `/api/users/:userId`).

Modelling conventions:
- MongoDB ObjectIds are `Nat`; `Date.now()` timestamps are `Nat`
  parameters threaded into the handlers.
- A JSON string field that may be absent is `Option String`; JavaScript
  `x || y` on string fields (where `undefined`, `null` and `""` are all
  falsy) is the `jsOr` function below.
- Each collection is a `List` inside a `DB` record; a handler is a pure
  function from a request and a `DB` to an HTTP result and the new `DB`.
- Mongoose validation (`validateSync`, and the implicit validation run by
  `save()` / `insertMany`) is modelled by `TeacherProfile.validateErr`,
  following the schema in `src/models/TeacherProfile.js`: `teacherName`
  and `email` are `required` strings (Mongoose `required` fails on a
  missing value and on the empty string); every other field has a
  default. A string field that the code never sets is modelled as `""`,
  which is equivalent for both `required` validation and `||` coalescing.
- The unique index on `TeacherProfile.userId` and the compound unique
  index on `Enrollment (userId, courseId)` are modelled by membership
  checks: an insert that would duplicate the key reports the Mongo
  duplicate-key error (code 11000), which the handlers map to HTTP 400.
-/

/-- JavaScript `x || y` for an optional string field: `undefined`, `null`
and `""` are falsy, any other string is truthy. -/
def jsOr (new : Option String) (old : String) : String :=
  match new with
  | some s => if s = "" then old else s
  | none => old

/-- JavaScript `x || y` for an optional array field: any array, including
`[]`, is truthy. -/
def jsOrList (new : Option (List String)) (old : List String) : List String :=
  new.getD old

/-- The `socialLinks` sub-document of `teacherProfileSchema`
(`src/models/TeacherProfile.js`): four string fields, each defaulting to
`''`. -/
structure SocialLinks where
  linkedin : String
  github : String
  twitter : String
  website : String
deriving Repr, DecidableEq

/-- The all-defaults social-links record `{linkedin:'', github:'',
twitter:'', website:''}`. -/
def SocialLinks.default : SocialLinks :=
  ⟨"", "", "", ""⟩

/-- A `socialLinks` object as it appears in a request body: each
sub-field may be absent. -/
structure SocialLinksPayload where
  linkedin : Option String
  github : Option String
  twitter : Option String
  website : Option String
deriving Repr, DecidableEq

/-- Mongoose's cast of a plain request-body object to the `socialLinks`
sub-document schema: a supplied sub-field keeps its value, an absent
sub-field gets the schema default `''`. This happens whenever the code
assigns a whole payload object to `teacherProfile.socialLinks` or passes
one to the `TeacherProfile` constructor. -/
def castSocialLinks (sp : SocialLinksPayload) : SocialLinks where
  linkedin := sp.linkedin.getD ""
  github := sp.github.getD ""
  twitter := sp.twitter.getD ""
  website := sp.website.getD ""

/-- A document of the `TeacherProfile` collection, following
`teacherProfileSchema` in `src/models/TeacherProfile.js`. `experience`
is a `String` there (default `'0'`). -/
structure TeacherProfile where
  userId : Nat
  teacherName : String
  email : String
  bio : String
  specialization : String
  experience : String
  education : String
  avatar : String
  certifications : List String
  expertise : List String
  socialLinks : SocialLinks
  rating : Nat
  totalRatings : Nat
  createdAt : Nat
  updatedAt : Nat
deriving Repr, DecidableEq

/-- Mongoose schema validation for `teacherProfileSchema`: `teacherName`
and `email` are `required: true` strings with no default, so validation
fails when either is missing or empty; every other path has a default.
Returns the first human-readable failure, `none` when the document is
valid. -/
def TeacherProfile.validateErr (p : TeacherProfile) : Option String :=
  if p.teacherName = "" then some "Path `teacherName` is required."
  else if p.email = "" then some "Path `email` is required."
  else none

/-- A document of the `User` collection. `src/models/User.js` is not part
of the sources; the fields here are the ones `src/index.js` reads and
writes (`email`, `password`, `name`, `role`, `createdAt`). -/
structure User where
  id : Nat
  email : String
  password : String
  name : String
  role : String
  createdAt : Nat
deriving Repr, DecidableEq

/-- Modelled from the spec: `src/models/User.js` is missing from the
sources; the spec's data model (§3) fixes `role ∈ {student, teacher,
admin}` as a closed enumeration enforced at the schema, so a `save()`
with any other role fails validation. -/
def roleValid (r : String) : Bool :=
  r = "student" || r = "teacher" || r = "admin"

/-- A document of the `Enrollment` collection
(`src/models/Enrollment.js`): `status` defaults to `'active'`,
`progress` to `0`, and a compound unique index on `(userId, courseId)`
forbids duplicate enrollments. -/
structure Enrollment where
  userId : Nat
  courseId : Nat
  status : String
  progress : Nat
  enrolledAt : Nat
deriving Repr, DecidableEq

/-- The storage state: one list per collection the claims touch. -/
structure DB where
  users : List User
  profiles : List TeacherProfile
  enrollments : List Enrollment
deriving Repr, DecidableEq

/-- An HTTP response as far as the claims observe it: the status code and
the error detail the handler put in the JSON body, when any. -/
structure HttpResult where
  status : Nat
  errorDetail : Option String
deriving Repr, DecidableEq

/-- The JWT payload `{userId, email, role}` signed by the register,
login and setup-admin endpoints. -/
structure Token where
  userId : Nat
  email : String
  role : String
deriving Repr, DecidableEq

/-- Result of the auth endpoints: status code plus the signed token on
success. -/
structure AuthResult where
  status : Nat
  token : Option Token
deriving Repr, DecidableEq

/-- `User.findOne({_id: tid, role: 'teacher'})`. -/
def findTeacherUser (db : DB) (tid : Nat) : Option User :=
  db.users.find? (fun u => u.id == tid && u.role == "teacher")

/-- `User.findById(uid)`. -/
def findUserById (db : DB) (uid : Nat) : Option User :=
  db.users.find? (fun u => u.id == uid)

/-- `TeacherProfile.findOne({userId: uid})`. -/
def findProfile (db : DB) (uid : Nat) : Option TeacherProfile :=
  db.profiles.find? (fun p => p.userId == uid)

/-- Replace the (unique-indexed) profile for `uid` in place: the effect
of `teacherProfile.save()` on a document loaded by `findOne`. -/
def replaceProfile (ps : List TeacherProfile) (uid : Nat) (p' : TeacherProfile) :
    List TeacherProfile :=
  ps.map (fun p => if p.userId == uid then p' else p)

/-- Remove the first profile matching `uid`:
`TeacherProfile.findOneAndDelete({userId})`. -/
def removeProfile : List TeacherProfile → Nat → List TeacherProfile
  | [], _ => []
  | p :: ps, uid => if p.userId == uid then ps else p :: removeProfile ps uid

/-- The default profile document the GET handler builds for a teacher
with no profile — `{userId, bio: '', specialization: '', experience: 0,
education: ''}` (`src/index.js` lines 477-483 and 507-513). It supplies
no `teacherName` and no `email`; the number `0` is cast to the schema's
string type as `'0'`; the remaining paths take their schema defaults. -/
def backfillProfile (uid : Nat) (now : Nat) : TeacherProfile where
  userId := uid
  teacherName := ""
  email := ""
  bio := ""
  specialization := ""
  experience := "0"
  education := ""
  avatar := ""
  certifications := []
  expertise := []
  socialLinks := SocialLinks.default
  rating := 0
  totalRatings := 0
  createdAt := now
  updatedAt := now

/-- GET `/api/teacherProfiles?teacherId=tid` (the single-profile branch,
`src/index.js` lines 467-488): 404 when no account with that id has
role `teacher`; otherwise return the profile, lazily creating a default
one first when none exists. `save()` on the lazily created document runs
schema validation; a validation failure is thrown and lands in the
generic `catch`, which answers 500. -/
def getTeacherProfileSingle (db : DB) (tid : Nat) (now : Nat) :
    HttpResult × DB :=
  match findTeacherUser db tid with
  | none => (⟨404, none⟩, db)
  | some _ =>
    match findProfile db tid with
    | some _ => (⟨200, none⟩, db)
    | none =>
      let p := backfillProfile tid now
      match p.validateErr with
      | some _ => (⟨500, none⟩, db)
      | none => (⟨200, none⟩, { db with profiles := db.profiles ++ [p] })

/-- GET `/api/teacherProfiles` with no query (the list branch,
`src/index.js` lines 489-525): gather all teacher accounts, find which
lack a profile, and `insertMany` a default profile for each missing one.
`insertMany` validates every document against the schema before writing;
any validation failure rejects the whole operation, inserting nothing,
and the generic `catch` answers 500. -/
def listTeacherProfilesBackfill (db : DB) (now : Nat) : HttpResult × DB :=
  let teachers := db.users.filter (fun u => u.role == "teacher")
  let teacherIds := teachers.map (·.id)
  let teacherProfiles := db.profiles.filter (fun p => teacherIds.contains p.userId)
  let existingProfileIds := teacherProfiles.map (·.userId)
  let missingProfiles := teachers.filter
    (fun t => !existingProfileIds.contains t.id)
  if missingProfiles.isEmpty then (⟨200, none⟩, db)
  else
    let newProfiles := missingProfiles.map (fun t => backfillProfile t.id now)
    if newProfiles.all (fun p => p.validateErr = none) then
      (⟨200, none⟩, { db with profiles := db.profiles ++ newProfiles })
    else (⟨500, none⟩, db)

/-- A POST/PUT teacher-profile request body: every field optional. -/
structure ProfilePayload where
  teacherName : Option String
  email : Option String
  bio : Option String
  specialization : Option String
  experience : Option String
  education : Option String
  avatar : Option String
  certifications : Option (List String)
  expertise : Option (List String)
  socialLinks : Option SocialLinksPayload
deriving Repr, DecidableEq

/-- The empty request body `{}`. -/
def ProfilePayload.empty : ProfilePayload :=
  ⟨none, none, none, none, none, none, none, none, none, none⟩

/-- The update branch of POST `/api/teacherProfiles` (`src/index.js`
lines 566-581): field-by-field `payload || stored` coalescing for the
scalar and array fields; the whole `socialLinks` object is assigned at
once (`socialLinks || teacherProfile.socialLinks`), so a supplied object
is cast against the sub-schema, resetting absent sub-fields to `''`.
`updatedAt` is set to now; `createdAt` is untouched. -/
def postUpdateProfile (p : TeacherProfile) (b : ProfilePayload) (now : Nat) :
    TeacherProfile :=
  { p with
    teacherName := jsOr b.teacherName p.teacherName
    email := jsOr b.email p.email
    bio := jsOr b.bio p.bio
    specialization := jsOr b.specialization p.specialization
    experience := jsOr b.experience p.experience
    education := jsOr b.education p.education
    avatar := jsOr b.avatar p.avatar
    certifications := jsOrList b.certifications p.certifications
    expertise := jsOrList b.expertise p.expertise
    socialLinks :=
      match b.socialLinks with
      | some sp => castSocialLinks sp
      | none => p.socialLinks
    updatedAt := now }

/-- The create branch of POST `/api/teacherProfiles` (`src/index.js`
lines 582-602): a fresh document whose `teacherName`/`email` default to
the owning account's `name`/`email`, the other fields to
empty/`'0'`/`[]`/all-empty social links. -/
def postCreateProfile (uid : Nat) (uname uemail : String)
    (b : ProfilePayload) (now : Nat) : TeacherProfile where
  userId := uid
  teacherName := jsOr b.teacherName uname
  email := jsOr b.email uemail
  bio := jsOr b.bio ""
  specialization := jsOr b.specialization ""
  experience := jsOr b.experience "0"
  education := jsOr b.education ""
  avatar := jsOr b.avatar ""
  certifications := jsOrList b.certifications []
  expertise := jsOrList b.expertise []
  socialLinks :=
    match b.socialLinks with
    | some sp => castSocialLinks sp
    | none => SocialLinks.default
  rating := 0
  totalRatings := 0
  createdAt := now
  updatedAt := now

/-- POST `/api/teacherProfiles` (`src/index.js` lines 533-632), after the
`authenticateToken`/`isTeacher` gates: 404 when the caller's account is
gone; otherwise create-or-merge-update on the caller's own profile, with
an explicit `validateSync` answering 400 (with the validation message)
before any `save`. -/
def postTeacherProfiles (db : DB) (callerId : Nat) (callerRole : String)
    (b : ProfilePayload) (now : Nat) : HttpResult × DB :=
  if callerRole ≠ "teacher" then (⟨403, none⟩, db)
  else
    match findUserById db callerId with
    | none => (⟨404, none⟩, db)
    | some user =>
      let p' :=
        match findProfile db callerId with
        | some p => postUpdateProfile p b now
        | none => postCreateProfile callerId user.name user.email b now
      match p'.validateErr with
      | some msg => (⟨400, some msg⟩, db)
      | none =>
        match findProfile db callerId with
        | some _ =>
          (⟨200, none⟩, { db with profiles := replaceProfile db.profiles callerId p' })
        | none =>
          (⟨200, none⟩, { db with profiles := db.profiles ++ [p'] })

/-- The create branch of PUT `/api/teacherProfiles/:teacherId`
(`src/index.js` lines 665-684): like the POST create branch, except
`teacherName` and `email` default to `''`, not to the account's
name/email. -/
def putCreateProfile (uid : Nat) (b : ProfilePayload) (now : Nat) :
    TeacherProfile where
  userId := uid
  teacherName := jsOr b.teacherName ""
  email := jsOr b.email ""
  bio := jsOr b.bio ""
  specialization := jsOr b.specialization ""
  experience := jsOr b.experience "0"
  education := jsOr b.education ""
  avatar := jsOr b.avatar ""
  certifications := jsOrList b.certifications []
  expertise := jsOrList b.expertise []
  socialLinks :=
    match b.socialLinks with
    | some sp => castSocialLinks sp
    | none => SocialLinks.default
  rating := 0
  totalRatings := 0
  createdAt := now
  updatedAt := now

/-- The update branch of PUT `/api/teacherProfiles/:teacherId`
(`src/index.js` lines 686-709): same scalar/array coalescing as the POST
update branch, but `socialLinks` is rebuilt sub-field by sub-field, each
sub-field coalescing to its own stored value
(`socialLinks?.x || stored.socialLinks?.x || ''`). -/
def putUpdateProfile (p : TeacherProfile) (b : ProfilePayload) (now : Nat) :
    TeacherProfile :=
  { p with
    teacherName := jsOr b.teacherName p.teacherName
    email := jsOr b.email p.email
    bio := jsOr b.bio p.bio
    specialization := jsOr b.specialization p.specialization
    experience := jsOr b.experience p.experience
    education := jsOr b.education p.education
    avatar := jsOr b.avatar p.avatar
    certifications := jsOrList b.certifications p.certifications
    expertise := jsOrList b.expertise p.expertise
    socialLinks :=
      { linkedin := jsOr (b.socialLinks.bind (·.linkedin)) p.socialLinks.linkedin
        github := jsOr (b.socialLinks.bind (·.github)) p.socialLinks.github
        twitter := jsOr (b.socialLinks.bind (·.twitter)) p.socialLinks.twitter
        website := jsOr (b.socialLinks.bind (·.website)) p.socialLinks.website }
    updatedAt := now }

/-- PUT `/api/teacherProfiles/:teacherId` (`src/index.js` lines 635-719),
after the `authenticateToken`/`isTeacher` gates: 403 unless `teacherId`
is the caller's own id; then create-or-merge-update with no
`validateSync` — `save()` still validates, and a thrown validation error
lands in the generic `catch`, which answers 500. -/
def putTeacherProfile (db : DB) (callerId : Nat) (callerRole : String)
    (teacherId : Nat) (b : ProfilePayload) (now : Nat) : HttpResult × DB :=
  if callerRole ≠ "teacher" then (⟨403, none⟩, db)
  else if teacherId ≠ callerId then (⟨403, none⟩, db)
  else
    match findProfile db teacherId with
    | none =>
      let p' := putCreateProfile teacherId b now
      match p'.validateErr with
      | some _ => (⟨500, none⟩, db)
      | none => (⟨200, none⟩, { db with profiles := db.profiles ++ [p'] })
    | some p =>
      let p' := putUpdateProfile p b now
      match p'.validateErr with
      | some _ => (⟨500, none⟩, db)
      | none =>
        (⟨200, none⟩, { db with profiles := replaceProfile db.profiles teacherId p' })

/-- POST `/api/enrollments` (`src/index.js` lines 306-324), after
`authenticateToken`: insert `{userId: caller, courseId}` with `status`
and `progress` taking their schema defaults; the compound unique index
on `(userId, courseId)` turns a duplicate insert into Mongo error code
11000, which the handler maps to HTTP 400 with the message
`Already enrolled in this course`; a successful insert answers 201. -/
def postEnrollment (db : DB) (callerId courseId : Nat) (now : Nat) :
    HttpResult × DB :=
  if db.enrollments.any (fun e => e.userId == callerId && e.courseId == courseId) then
    (⟨400, some "Already enrolled in this course"⟩, db)
  else
    (⟨201, none⟩,
     { db with enrollments :=
         db.enrollments ++ [⟨callerId, courseId, "active", 0, now⟩] })

/-- POST `/api/register` (`src/index.js` lines 66-111): 400 when any of
`email`/`password`/`name`/`role` is missing (JS falsy, so the empty
string too), 400 when a user with that email exists, otherwise save the
user with the caller-chosen role — the handler itself imposes no
restriction on `role` — and answer 201 with a JWT carrying
`{userId, email, role}`. The `save()` validation of the role enum is
modelled from the spec via `roleValid` (a failure there is thrown and
answered 500). -/
def register (db : DB) (email password name role : String)
    (newId now : Nat) : AuthResult × DB :=
  if email = "" ∨ password = "" ∨ name = "" ∨ role = "" then (⟨400, none⟩, db)
  else if db.users.any (fun u => u.email == email) then (⟨400, none⟩, db)
  else if roleValid role then
    (⟨201, some ⟨newId, email, role⟩⟩,
     { db with users := db.users ++ [⟨newId, email, password, name, role, now⟩] })
  else (⟨500, none⟩, db)

/-- POST `/api/setup-admin` (`src/index.js` lines 822-867): 403 as soon
as any account with role `admin` exists; otherwise 400 on a missing
field, else save a new user with role fixed to `admin` and answer 201
with a JWT for it. -/
def setupAdmin (db : DB) (email password name : String)
    (newId now : Nat) : AuthResult × DB :=
  if db.users.any (fun u => u.role == "admin") then (⟨403, none⟩, db)
  else if email = "" ∨ password = "" ∨ name = "" then (⟨400, none⟩, db)
  else
    (⟨201, some ⟨newId, email, "admin"⟩⟩,
     { db with users := db.users ++ [⟨newId, email, password, name, "admin", now⟩] })

/-- PUT `/api/users/:userId` (`src/index.js` lines 733-756), after the
`authenticateToken`/`isAdmin` gates: 404 when the user does not exist,
otherwise coalesce `name`/`email`/`role` from the body onto the stored
user and save. It never touches the `TeacherProfile` collection. -/
def updateUser (db : DB) (userId : Nat)
    (name email role : Option String) : HttpResult × DB :=
  match findUserById db userId with
  | none => (⟨404, none⟩, db)
  | some u =>
    let u' := { u with
      name := jsOr name u.name
      email := jsOr email u.email
      role := jsOr role u.role }
    (⟨200, none⟩,
     { db with users := db.users.map (fun v => if v.id == userId then u' else v) })

/-- DELETE `/api/users/:userId` (`src/index.js` lines 759-787), after the
`authenticateToken`/`isAdmin` gates: 404 when the user does not exist;
otherwise delete the user, and delete their teacher profile only when
the user's role is `teacher` at deletion time. -/
def deleteUser (db : DB) (userId : Nat) : HttpResult × DB :=
  match findUserById db userId with
  | none => (⟨404, none⟩, db)
  | some u =>
    let db1 := { db with users := db.users.filter (fun v => !(v.id == userId)) }
    if u.role == "teacher" then
      (⟨200, none⟩, { db1 with profiles := removeProfile db1.profiles userId })
    else (⟨200, none⟩, db1)

/-- The number of `TeacherProfile` documents owned by `uid`. -/
def profileCount (db : DB) (uid : Nat) : Nat :=
  (db.profiles.filter (fun p => p.userId == uid)).length

/-- The number of `Enrollment` documents for the pair `(uid, cid)`. -/
def enrollmentCount (db : DB) (uid cid : Nat) : Nat :=
  (db.enrollments.filter (fun e => e.userId == uid && e.courseId == cid)).length

/-! ### Shared helper lemmas -/

/-- The merge contract for one optional field, as the spec words it: a
present, non-empty payload value overwrites the stored value; an absent
(or empty, hence falsy) payload value retains it. -/
def MergesScalar (payload : Option String) (stored result : String) : Prop :=
  (∀ s : String, payload = some s → s ≠ "" → result = s) ∧
  ((payload = none ∨ payload = some "") → result = stored)

theorem mergesScalar_jsOr (o : Option String) (old : String) :
    MergesScalar o old (jsOr o old) := by
  constructor
  · intro s hs hne
    simp [jsOr, hs, hne]
  · rintro (h | h) <;> simp [jsOr, h]

theorem enrollments_any_eq_false_of_count_zero (db : DB) (u c : Nat)
    (h : enrollmentCount db u c = 0) :
    db.enrollments.any (fun e => e.userId == u && e.courseId == c) = false := by
  rw [List.any_eq_false]
  intro e he hme
  have hnil : db.enrollments.filter (fun e => e.userId == u && e.courseId == c) = [] :=
    List.length_eq_zero.mp h
  have : e ∈ db.enrollments.filter (fun e => e.userId == u && e.courseId == c) :=
    List.mem_filter.mpr ⟨he, hme⟩
  simp [hnil] at this

/-! ### Claim theorems -/

/-- C6: for every account id whose account does not exist or does not
have role `teacher`, the single branch of GET `/api/teacherProfiles`
answers 404 and leaves the whole store — in particular the profile
collection — unchanged. -/
theorem fetch_or_create_nonteacher_404 (db : DB) (tid now : Nat)
    (h : ∀ u ∈ db.users, u.id = tid → u.role ≠ "teacher") :
    (getTeacherProfileSingle db tid now).1.status = 404 ∧
    (getTeacherProfileSingle db tid now).2 = db := by
  have hf : findTeacherUser db tid = none := by
    rw [findTeacherUser, List.find?_eq_none]
    intro u hu
    simp only [Bool.and_eq_true, beq_iff_eq, not_and]
    exact fun hid => by simpa using h u hu hid
  simp [getTeacherProfileSingle, hf]

theorem fetch_or_create_nonteacher_404_witness :
    (∀ u ∈ (DB.mk [⟨1, "a@x", "pw", "A", "student", 0⟩] [] []).users,
        u.id = 1 → u.role ≠ "teacher") ∧
    (getTeacherProfileSingle (DB.mk [⟨1, "a@x", "pw", "A", "student", 0⟩] [] []) 1 5).1.status = 404 ∧
    (getTeacherProfileSingle (DB.mk [⟨1, "a@x", "pw", "A", "student", 0⟩] [] []) 1 5).2 =
      DB.mk [⟨1, "a@x", "pw", "A", "student", 0⟩] [] [] :=
  ⟨by decide, fetch_or_create_nonteacher_404 _ 1 5 (by decide)⟩

/-- C7: an authenticated teacher calling PUT
`/api/teacherProfiles/:teacherId` with a `teacherId` different from
their own account id always receives 403, and the store — in particular
the target profile — is unchanged. -/
theorem put_other_teacher_403 (db : DB) (callerId tid now : Nat)
    (b : ProfilePayload) (h : tid ≠ callerId) :
    putTeacherProfile db callerId "teacher" tid b now = (⟨403, none⟩, db) := by
  simp [putTeacherProfile, h]

theorem put_other_teacher_403_witness :
    (2 : Nat) ≠ 1 ∧
    putTeacherProfile (DB.mk [] [] []) 1 "teacher" 2 ProfilePayload.empty 5 =
      (⟨403, none⟩, DB.mk [] [] []) :=
  ⟨by decide, put_other_teacher_403 _ 1 2 5 ProfilePayload.empty (by decide)⟩

/-- C8: starting from a store with no enrollment for the pair `(u, c)`,
of two enrollment attempts for that pair the first succeeds with 201,
the second is turned into a uniqueness conflict by the storage layer and
answers 400 with the domain message, and afterward the enrollment
collection holds exactly one record for the pair. -/
theorem duplicate_enrollment_conflict (db : DB) (u c n1 n2 : Nat)
    (h : enrollmentCount db u c = 0) :
    (postEnrollment db u c n1).1.status = 201 ∧
    (postEnrollment (postEnrollment db u c n1).2 u c n2).1.status = 400 ∧
    (postEnrollment (postEnrollment db u c n1).2 u c n2).1.errorDetail =
      some "Already enrolled in this course" ∧
    enrollmentCount (postEnrollment (postEnrollment db u c n1).2 u c n2).2 u c = 1 := by
  have hany := enrollments_any_eq_false_of_count_zero db u c h
  have hnil : db.enrollments.filter (fun e => e.userId == u && e.courseId == c) = [] :=
    List.length_eq_zero.mp h
  refine ⟨by simp [postEnrollment, hany], ?_, ?_, ?_⟩ <;>
    simp [postEnrollment, hany, enrollmentCount, List.filter_append, hnil]

theorem duplicate_enrollment_conflict_witness :
    enrollmentCount (DB.mk [] [] []) 1 2 = 0 ∧
    (postEnrollment (DB.mk [] [] []) 1 2 10).1.status = 201 ∧
    (postEnrollment (postEnrollment (DB.mk [] [] []) 1 2 10).2 1 2 11).1.status = 400 ∧
    (postEnrollment (postEnrollment (DB.mk [] [] []) 1 2 10).2 1 2 11).1.errorDetail =
      some "Already enrolled in this course" ∧
    enrollmentCount (postEnrollment (postEnrollment (DB.mk [] [] []) 1 2 10).2 1 2 11).2 1 2 = 1 :=
  ⟨by decide, duplicate_enrollment_conflict (DB.mk [] [] []) 1 2 10 11 (by decide)⟩

/-- A store holding one teacher account and no profiles: the failing
input for the backfill guarantee. -/
def dbOneTeacherNoProfile : DB :=
  DB.mk [⟨1, "t@x", "pw", "T", "teacher", 0⟩] [] []

/-- C1: at a store with one teacher account and no profile, the list
branch of GET `/api/teacherProfiles` does NOT leave every teacher with a
profile: the `insertMany` payload omits the schema-required
`teacherName` and `email` (it matches an older schema variant), so
validation rejects the bulk insert, the handler answers 500, and the
teacher still has zero profiles — contradicting the guarantee that
every teacher account has exactly one profile after the call. -/
theorem backfill_insertMany_fails_required_validation :
    (backfillProfile 1 5).validateErr = some "Path `teacherName` is required." ∧
    (listTeacherProfilesBackfill dbOneTeacherNoProfile 5).1.status = 500 ∧
    (listTeacherProfilesBackfill dbOneTeacherNoProfile 5).2 = dbOneTeacherNoProfile ∧
    profileCount (listTeacherProfilesBackfill dbOneTeacherNoProfile 5).2 1 = 0 := by
  decide

/-- The stored profile of the spec's merge example: bio `old`,
specialization `S`. -/
def exampleStored : TeacherProfile where
  userId := 1
  teacherName := "T"
  email := "t@x"
  bio := "old"
  specialization := "S"
  experience := "1"
  education := ""
  avatar := ""
  certifications := []
  expertise := []
  socialLinks := SocialLinks.default
  rating := 0
  totalRatings := 0
  createdAt := 0
  updatedAt := 0

/-- The payload of the spec's merge example: just `{bio: "X"}`. -/
def examplePayload : ProfilePayload :=
  { ProfilePayload.empty with bio := some "X" }

/-- C2: in both update branches (POST `/api/teacherProfiles` and PUT
`/api/teacherProfiles/:teacherId`), every scalar field that is present
and non-empty in the payload overwrites the stored value, and every
other scalar field retains its stored value; in particular `{bio: "X"}`
on a profile holding bio `old`, specialization `S` yields bio `X` with
specialization `S` preserved. -/
theorem merge_update_overwrites_exactly_nonempty_scalars
    (p : TeacherProfile) (b : ProfilePayload) (now : Nat) :
    (MergesScalar b.bio p.bio (postUpdateProfile p b now).bio ∧
     MergesScalar b.bio p.bio (putUpdateProfile p b now).bio) ∧
    (MergesScalar b.teacherName p.teacherName (postUpdateProfile p b now).teacherName ∧
     MergesScalar b.teacherName p.teacherName (putUpdateProfile p b now).teacherName) ∧
    (MergesScalar b.email p.email (postUpdateProfile p b now).email ∧
     MergesScalar b.email p.email (putUpdateProfile p b now).email) ∧
    (MergesScalar b.specialization p.specialization (postUpdateProfile p b now).specialization ∧
     MergesScalar b.specialization p.specialization (putUpdateProfile p b now).specialization) ∧
    (MergesScalar b.experience p.experience (postUpdateProfile p b now).experience ∧
     MergesScalar b.experience p.experience (putUpdateProfile p b now).experience) ∧
    (MergesScalar b.education p.education (postUpdateProfile p b now).education ∧
     MergesScalar b.education p.education (putUpdateProfile p b now).education) ∧
    (MergesScalar b.avatar p.avatar (postUpdateProfile p b now).avatar ∧
     MergesScalar b.avatar p.avatar (putUpdateProfile p b now).avatar) ∧
    ((postUpdateProfile exampleStored examplePayload 7).bio = "X" ∧
     (postUpdateProfile exampleStored examplePayload 7).specialization = "S" ∧
     (putUpdateProfile exampleStored examplePayload 7).bio = "X" ∧
     (putUpdateProfile exampleStored examplePayload 7).specialization = "S") := by
  refine ⟨⟨?_, ?_⟩, ⟨?_, ?_⟩, ⟨?_, ?_⟩, ⟨?_, ?_⟩, ⟨?_, ?_⟩, ⟨?_, ?_⟩, ⟨?_, ?_⟩, ?_⟩
  · exact mergesScalar_jsOr b.bio p.bio
  · exact mergesScalar_jsOr b.bio p.bio
  · exact mergesScalar_jsOr b.teacherName p.teacherName
  · exact mergesScalar_jsOr b.teacherName p.teacherName
  · exact mergesScalar_jsOr b.email p.email
  · exact mergesScalar_jsOr b.email p.email
  · exact mergesScalar_jsOr b.specialization p.specialization
  · exact mergesScalar_jsOr b.specialization p.specialization
  · exact mergesScalar_jsOr b.experience p.experience
  · exact mergesScalar_jsOr b.experience p.experience
  · exact mergesScalar_jsOr b.education p.education
  · exact mergesScalar_jsOr b.education p.education
  · exact mergesScalar_jsOr b.avatar p.avatar
  · exact mergesScalar_jsOr b.avatar p.avatar
  · exact ⟨by decide, by decide, by decide, by decide⟩

theorem merge_update_scalars_witness :
    (postUpdateProfile exampleStored examplePayload 7).bio = "X" ∧
    (postUpdateProfile exampleStored examplePayload 7).specialization = "S" :=
  ⟨(merge_update_overwrites_exactly_nonempty_scalars exampleStored examplePayload 7).1.1.1
      "X" rfl (by decide),
   ((merge_update_overwrites_exactly_nonempty_scalars exampleStored examplePayload 7).2.2.2.1.1.2)
      (Or.inl rfl)⟩

/-- A stored profile whose social links are all non-empty. -/
def storedWithLinks : TeacherProfile where
  userId := 1
  teacherName := "T"
  email := "t@x"
  bio := ""
  specialization := ""
  experience := "0"
  education := ""
  avatar := ""
  certifications := []
  expertise := []
  socialLinks := ⟨"A", "B", "C", "D"⟩
  rating := 0
  totalRatings := 0
  createdAt := 0
  updatedAt := 0

/-- A payload supplying only the `linkedin` sub-field of `socialLinks`. -/
def linkedinOnlyPayload : ProfilePayload :=
  { ProfilePayload.empty with socialLinks := some ⟨some "L", none, none, none⟩ }

/-- C3 counterexample: in the POST `/api/teacherProfiles` update branch,
a payload whose `socialLinks` supplies only `linkedin` does NOT leave
the stored `github` value in place — the whole sub-record is replaced
and the absent `github` sub-field is reset to the schema default `''`,
not coalesced to its prior value `B`. -/
theorem post_socialLinks_replace_counterexample :
    storedWithLinks.socialLinks.github = "B" ∧
    linkedinOnlyPayload.socialLinks = some ⟨some "L", none, none, none⟩ ∧
    (postUpdateProfile storedWithLinks linkedinOnlyPayload 7).socialLinks.linkedin = "L" ∧
    (postUpdateProfile storedWithLinks linkedinOnlyPayload 7).socialLinks.github = "" ∧
    (postUpdateProfile storedWithLinks linkedinOnlyPayload 7).socialLinks.github ≠ "B" := by
  decide

/-- C3 as amended: only PUT `/api/teacherProfiles/:teacherId` merges the
`socialLinks` sub-record independently per sub-field, each sub-field
coalescing to its own prior stored value; in POST
`/api/teacherProfiles`, a supplied `socialLinks` object replaces the
whole sub-record (absent sub-fields are reset to the empty-string
schema default), and only a wholly absent `socialLinks` retains the
stored sub-record. -/
theorem socialLinks_merge_semantics (p : TeacherProfile) (b : ProfilePayload)
    (now : Nat) :
    MergesScalar (b.socialLinks.bind (·.linkedin)) p.socialLinks.linkedin
      (putUpdateProfile p b now).socialLinks.linkedin ∧
    MergesScalar (b.socialLinks.bind (·.github)) p.socialLinks.github
      (putUpdateProfile p b now).socialLinks.github ∧
    MergesScalar (b.socialLinks.bind (·.twitter)) p.socialLinks.twitter
      (putUpdateProfile p b now).socialLinks.twitter ∧
    MergesScalar (b.socialLinks.bind (·.website)) p.socialLinks.website
      (putUpdateProfile p b now).socialLinks.website ∧
    (∀ sp : SocialLinksPayload, b.socialLinks = some sp →
      (postUpdateProfile p b now).socialLinks = castSocialLinks sp) ∧
    (b.socialLinks = none →
      (postUpdateProfile p b now).socialLinks = p.socialLinks) := by
  refine ⟨mergesScalar_jsOr _ _, mergesScalar_jsOr _ _, mergesScalar_jsOr _ _,
    mergesScalar_jsOr _ _, ?_, ?_⟩
  · intro sp hsp
    simp [postUpdateProfile, hsp]
  · intro hnone
    simp [postUpdateProfile, hnone]

theorem socialLinks_merge_semantics_witness :
    (putUpdateProfile storedWithLinks linkedinOnlyPayload 7).socialLinks.github = "B" ∧
    (postUpdateProfile storedWithLinks linkedinOnlyPayload 7).socialLinks =
      castSocialLinks ⟨some "L", none, none, none⟩ :=
  ⟨(socialLinks_merge_semantics storedWithLinks linkedinOnlyPayload 7).2.1.2
      (Or.inl rfl),
   (socialLinks_merge_semantics storedWithLinks linkedinOnlyPayload 7).2.2.2.2.1
      ⟨some "L", none, none, none⟩ rfl⟩

/-- A store holding one teacher account named Alice and no profiles. -/
def dbAliceTeacher : DB :=
  DB.mk [⟨1, "alice@x", "pw", "Alice", "teacher", 0⟩] [] []

/-- C4 counterexample: when the teacher Alice, who has no profile yet,
calls PUT `/api/teacherProfiles/:teacherId` on her own id with an empty
body, the document the create branch builds defaults `teacherName` and
`email` to `''` — not to the account's name `Alice` and email
`alice@x` — so the save fails schema validation, the handler answers
500, and no profile is created at all. -/
theorem put_create_defaults_counterexample :
    findUserById dbAliceTeacher 1 = some ⟨1, "alice@x", "pw", "Alice", "teacher", 0⟩ ∧
    (putCreateProfile 1 ProfilePayload.empty 9).teacherName = "" ∧
    (putCreateProfile 1 ProfilePayload.empty 9).teacherName ≠ "Alice" ∧
    (putCreateProfile 1 ProfilePayload.empty 9).email ≠ "alice@x" ∧
    (putTeacherProfile dbAliceTeacher 1 "teacher" 1 ProfilePayload.empty 9).1.status = 500 ∧
    (putTeacherProfile dbAliceTeacher 1 "teacher" 1 ProfilePayload.empty 9).2.profiles = [] := by
  decide

/-- C4 as amended: only POST `/api/teacherProfiles` defaults the
required `teacherName` and `email` of a first-write profile to the
owning account's name and email; PUT `/api/teacherProfiles/:teacherId`
defaults them to the empty string, so a first-write PUT that omits them
fails schema validation with 500 and creates no profile. -/
theorem create_defaults_semantics (db : DB) (cid now : Nat) (u : User)
    (b : ProfilePayload)
    (hu : findUserById db cid = some u)
    (hp : findProfile db cid = none)
    (hbn : b.teacherName = none) (hbe : b.email = none)
    (hn : u.name ≠ "") (he : u.email ≠ "") :
    (postCreateProfile cid u.name u.email b now).teacherName = u.name ∧
    (postCreateProfile cid u.name u.email b now).email = u.email ∧
    (postTeacherProfiles db cid "teacher" b now).1.status = 200 ∧
    (postTeacherProfiles db cid "teacher" b now).2.profiles =
      db.profiles ++ [postCreateProfile cid u.name u.email b now] ∧
    (putCreateProfile cid b now).teacherName = "" ∧
    (putTeacherProfile db cid "teacher" cid b now).1.status = 500 ∧
    (putTeacherProfile db cid "teacher" cid b now).2 = db := by
  have htn : (postCreateProfile cid u.name u.email b now).teacherName = u.name := by
    simp [postCreateProfile, jsOr, hbn]
  have hem : (postCreateProfile cid u.name u.email b now).email = u.email := by
    simp [postCreateProfile, jsOr, hbe]
  have hval : (postCreateProfile cid u.name u.email b now).validateErr = none := by
    simp [TeacherProfile.validateErr, htn, hem, hn, he]
  have hputtn : (putCreateProfile cid b now).teacherName = "" := by
    simp [putCreateProfile, jsOr, hbn]
  have hputval : (putCreateProfile cid b now).validateErr =
      some "Path `teacherName` is required." := by
    simp [TeacherProfile.validateErr, hputtn]
  refine ⟨htn, hem, ?_, ?_, hputtn, ?_, ?_⟩ <;>
    simp [postTeacherProfiles, putTeacherProfile, hu, hp, hval, hputval]

theorem create_defaults_semantics_witness :
    (postTeacherProfiles dbAliceTeacher 1 "teacher" ProfilePayload.empty 9).1.status = 200 ∧
    (putTeacherProfile dbAliceTeacher 1 "teacher" 1 ProfilePayload.empty 9).1.status = 500 :=
  ⟨(create_defaults_semantics dbAliceTeacher 1 9 ⟨1, "alice@x", "pw", "Alice", "teacher", 0⟩
      ProfilePayload.empty (by decide) (by decide) rfl rfl (by decide) (by decide)).2.2.1,
   (create_defaults_semantics dbAliceTeacher 1 9 ⟨1, "alice@x", "pw", "Alice", "teacher", 0⟩
      ProfilePayload.empty (by decide) (by decide) rfl rfl (by decide) (by decide)).2.2.2.2.2.1⟩

/-- A store holding one teacher account named Bob and no profiles. -/
def dbBobTeacher : DB :=
  DB.mk [⟨2, "bob@x", "pw", "Bob", "teacher", 0⟩] [] []

/-- C5 counterexample: on PUT `/api/teacherProfiles/:teacherId`, a
payload that violates the schema (here an empty body on a first write,
which leaves the required `teacherName` empty) is answered with 500,
not with the 400 the claim states for both endpoints: the PUT handler
runs no `validateSync`, so the validation failure thrown by `save()`
falls into the generic catch. -/
theorem put_validation_status_counterexample :
    (putCreateProfile 2 ProfilePayload.empty 3).validateErr =
      some "Path `teacherName` is required." ∧
    (putTeacherProfile dbBobTeacher 2 "teacher" 2 ProfilePayload.empty 3).1.status = 500 ∧
    (putTeacherProfile dbBobTeacher 2 "teacher" 2 ProfilePayload.empty 3).1.status ≠ 400 := by
  decide

/-- C5 as amended: POST `/api/teacherProfiles` checks all schema
constraints synchronously (`validateSync`) before persisting and
answers any violation with 400 carrying the human-readable detail,
leaving the store untouched; PUT `/api/teacherProfiles/:teacherId`
performs no pre-validation, so a violation surfaces from `save()` as a
500 — but in both endpoints the write never reaches storage. -/
theorem validation_before_persist_semantics (db : DB) (cid now : Nat)
    (b : ProfilePayload) (u : User) (msg msg' : String)
    (hu : findUserById db cid = some u) :
    (∀ p, findProfile db cid = some p →
      (postUpdateProfile p b now).validateErr = some msg →
      postTeacherProfiles db cid "teacher" b now = (⟨400, some msg⟩, db)) ∧
    (findProfile db cid = none →
      (postCreateProfile cid u.name u.email b now).validateErr = some msg →
      postTeacherProfiles db cid "teacher" b now = (⟨400, some msg⟩, db)) ∧
    (∀ p, findProfile db cid = some p →
      (putUpdateProfile p b now).validateErr = some msg' →
      putTeacherProfile db cid "teacher" cid b now = (⟨500, none⟩, db)) ∧
    (findProfile db cid = none →
      (putCreateProfile cid b now).validateErr = some msg' →
      putTeacherProfile db cid "teacher" cid b now = (⟨500, none⟩, db)) := by
  refine ⟨?_, ?_, ?_, ?_⟩
  · intro p hp hv
    simp [postTeacherProfiles, hu, hp, hv]
  · intro hp hv
    simp [postTeacherProfiles, hu, hp, hv]
  · intro p hp hv
    simp [putTeacherProfile, hp, hv]
  · intro hp hv
    simp [putTeacherProfile, hp, hv]

/-- A store holding one teacher account with an empty name and email
(so a first-write POST with an empty body fails validation). -/
def dbNamelessTeacher : DB :=
  DB.mk [⟨3, "", "pw", "", "teacher", 0⟩] [] []

theorem validation_before_persist_witness :
    postTeacherProfiles dbNamelessTeacher 3 "teacher" ProfilePayload.empty 4 =
      (⟨400, some "Path `teacherName` is required."⟩, dbNamelessTeacher) ∧
    putTeacherProfile dbNamelessTeacher 3 "teacher" 3 ProfilePayload.empty 4 =
      (⟨500, none⟩, dbNamelessTeacher) :=
  ⟨(validation_before_persist_semantics dbNamelessTeacher 3 4 ProfilePayload.empty
      ⟨3, "", "pw", "", "teacher", 0⟩ "Path `teacherName` is required."
      "Path `teacherName` is required." (by decide)).2.1 (by decide) (by decide),
   (validation_before_persist_semantics dbNamelessTeacher 3 4 ProfilePayload.empty
      ⟨3, "", "pw", "", "teacher", 0⟩ "Path `teacherName` is required."
      "Path `teacherName` is required." (by decide)).2.2.2 (by decide) (by decide)⟩

/-- C9: the public POST `/api/register` passes the caller-chosen role
through without restriction or authentication: any payload with
role `admin`, non-empty fields and a fresh email is answered 201 and
the issued token carries the admin role, with the account stored as an
admin — unlike POST `/api/setup-admin`, which answers 403 as soon as
any admin account exists. -/
theorem register_admin_unrestricted (db db' : DB)
    (email pw name e' p' n' : String) (newId now newId' now' : Nat)
    (hemail : email ≠ "") (hpw : pw ≠ "") (hname : name ≠ "")
    (hfresh : ∀ u ∈ db.users, u.email ≠ email)
    (hadmin : ∃ u ∈ db'.users, u.role = "admin") :
    (register db email pw name "admin" newId now).1.status = 201 ∧
    (register db email pw name "admin" newId now).1.token =
      some ⟨newId, email, "admin"⟩ ∧
    ⟨newId, email, pw, name, "admin", now⟩ ∈
      (register db email pw name "admin" newId now).2.users ∧
    (setupAdmin db' e' p' n' newId' now').1.status = 403 := by
  have hnone : db.users.any (fun u => u.email == email) = false := by
    rw [List.any_eq_false]
    intro u hu
    simpa using hfresh u hu
  have hsome : db'.users.any (fun u => u.role == "admin") = true := by
    rw [List.any_eq_true]
    obtain ⟨u, hu, hr⟩ := hadmin
    exact ⟨u, hu, by simpa using hr⟩
  have hrv : roleValid "admin" = true := by decide
  refine ⟨?_, ?_, ?_, ?_⟩ <;>
    simp [register, setupAdmin, hemail, hpw, hname, hnone, hsome, hrv]

theorem register_admin_unrestricted_witness :
    (register (DB.mk [] [] []) "eve@x" "pw" "Eve" "admin" 1 0).1.status = 201 ∧
    (register (DB.mk [] [] []) "eve@x" "pw" "Eve" "admin" 1 0).1.token =
      some ⟨1, "eve@x", "admin"⟩ ∧
    ⟨1, "eve@x", "pw", "Eve", "admin", 0⟩ ∈
      (register (DB.mk [] [] []) "eve@x" "pw" "Eve" "admin" 1 0).2.users ∧
    (setupAdmin (DB.mk [⟨7, "r@x", "pw", "R", "admin", 0⟩] [] [])
      "s@x" "pw" "S" 8 1).1.status = 403 :=
  register_admin_unrestricted (DB.mk [] [] [])
    (DB.mk [⟨7, "r@x", "pw", "R", "admin", 0⟩] [] [])
    "eve@x" "pw" "Eve" "s@x" "pw" "S" 1 0 8 1
    (by decide) (by decide) (by decide) (by decide)
    ⟨⟨7, "r@x", "pw", "R", "admin", 0⟩, by decide, rfl⟩

/-- C10: the admin user-update endpoint never touches the
teacher-profile collection, so changing a teacher account's role away
from `teacher` leaves the profile record in place (a profile can then
exist for a non-teacher account); the delete endpoint removes the
profile exactly when the account's stored role is still `teacher` at
deletion time, and leaves the profile collection unchanged otherwise. -/
theorem profile_survives_role_change (db dbd : DB) (uid did : Nat)
    (name email role : Option String) (u : User)
    (hu : findUserById dbd did = some u) :
    (updateUser db uid name email role).2.profiles = db.profiles ∧
    (u.role = "teacher" →
      (deleteUser dbd did).2.profiles = removeProfile dbd.profiles did) ∧
    (u.role ≠ "teacher" →
      (deleteUser dbd did).2.profiles = dbd.profiles) := by
  refine ⟨?_, ?_, ?_⟩
  · cases h : findUserById db uid <;> simp [updateUser, h]
  · intro ht
    simp [deleteUser, hu, ht]
  · intro ht
    simp [deleteUser, hu, ht]

theorem profile_survives_role_change_witness :
    (updateUser
      (DB.mk [⟨1, "t@x", "pw", "T", "teacher", 0⟩]
        [backfillProfile 1 0] []) 1 none none (some "student")).2.profiles =
      [backfillProfile 1 0] ∧
    (deleteUser
      (DB.mk [⟨1, "t@x", "pw", "T", "teacher", 0⟩]
        [backfillProfile 1 0] []) 1).2.profiles =
      removeProfile [backfillProfile 1 0] 1 :=
  ⟨(profile_survives_role_change
      (DB.mk [⟨1, "t@x", "pw", "T", "teacher", 0⟩] [backfillProfile 1 0] [])
      (DB.mk [⟨1, "t@x", "pw", "T", "teacher", 0⟩] [backfillProfile 1 0] [])
      1 1 none none (some "student") ⟨1, "t@x", "pw", "T", "teacher", 0⟩
      (by decide)).1,
   (profile_survives_role_change
      (DB.mk [⟨1, "t@x", "pw", "T", "teacher", 0⟩] [backfillProfile 1 0] [])
      (DB.mk [⟨1, "t@x", "pw", "T", "teacher", 0⟩] [backfillProfile 1 0] [])
      1 1 none none (some "student") ⟨1, "t@x", "pw", "T", "teacher", 0⟩
      (by decide)).2.1 rfl⟩
